import Mathlib

/-!
Verification of the Hyperion Python SDK client
(`src/sdk/python/hyperion_sdk/client.py`) against its specification.

The client is a single dataclass `HyperionClient` with fields `base_url`,
`api_key` (optional) and `timeout`, a private `_request` helper and six
public operations.  We shallowly embed the client in Lean: JSON values are
an inductive type, `json.dumps` / `json.loads` become executable Lean
functions, and the network (`urllib.request.urlopen`) becomes an explicit
`Transport` oracle mapping the built request to the outcome `urlopen`
produces: a successful response, an `HTTPError` (status ≥ 400, carrying the
status code, the reason phrase and, when the error response had a readable
body attached, that body), or a `URLError` (transport-level failure).
-/

/-- JSON values, as produced by Python's `json` module on the bodies this
client exchanges.  Numbers are modelled as integers (the client and its
tests only exchange integers; float literals are outside the model). -/
inductive Json where
  | null : Json
  | bool : Bool → Json
  | num : Int → Json
  | str : String → Json
  | arr : List Json → Json
  | obj : List (String × Json) → Json
deriving Repr

/-- Whether a JSON value is an object (a Python mapping). -/
def Json.isObj : Json → Bool
  | .obj _ => true
  | _ => false

/-- Escape one character the way `json.dumps` does for the characters that
occur in this client's payloads. -/
def jsonEscapeChar (c : Char) : String :=
  if c = '"' then "\\\""
  else if c = '\\' then "\\\\"
  else if c = '\n' then "\\n"
  else if c = '\t' then "\\t"
  else if c = '\r' then "\\r"
  else String.singleton c

/-- Escape a string the way `json.dumps` does. -/
def jsonEscape (s : String) : String :=
  String.join (s.data.map jsonEscapeChar)

mutual

/-- Model of `json.dumps` with its default separators (`, ` and `: `). -/
def jsonDumps : Json → String
  | .null => "null"
  | .bool true => "true"
  | .bool false => "false"
  | .num n => toString n
  | .str s => "\"" ++ jsonEscape s ++ "\""
  | .arr xs => "[" ++ dumpsItems xs ++ "]"
  | .obj fs => "\x7b" ++ dumpsFields fs ++ "\x7d"

/-- Serialize array elements, `, `-separated. -/
def dumpsItems : List Json → String
  | [] => ""
  | [x] => jsonDumps x
  | x :: y :: rest => jsonDumps x ++ ", " ++ dumpsItems (y :: rest)

/-- Serialize object members, `, `-separated, `: ` after each key. -/
def dumpsFields : List (String × Json) → String
  | [] => ""
  | [(k, v)] => "\"" ++ jsonEscape k ++ "\": " ++ jsonDumps v
  | (k, v) :: f :: rest =>
      "\"" ++ jsonEscape k ++ "\": " ++ jsonDumps v ++ ", " ++ dumpsFields (f :: rest)

end

/-- JSON whitespace, as skipped by Python's `json` scanner. -/
def jsonWs (c : Char) : Bool :=
  c = ' ' || c = '\t' || c = '\n' || c = '\r'

/-- Drop leading JSON whitespace. -/
def skipWs : List Char → List Char
  | [] => []
  | c :: cs => if jsonWs c then skipWs cs else c :: cs

/-- Decode a JSON string escape character (after the backslash). -/
def escDecode (e : Char) : Option Char :=
  if e = '"' then some '"'
  else if e = '\\' then some '\\'
  else if e = '/' then some '/'
  else if e = 'n' then some '\n'
  else if e = 't' then some '\t'
  else if e = 'r' then some '\r'
  else if e = 'b' then some (Char.ofNat 8)
  else if e = 'f' then some (Char.ofNat 12)
  else none

/-- Parse the body of a JSON string literal, after the opening quote, up to
and including the closing quote.  Returns the decoded string and the rest
of the input. -/
def parseStringBody : List Char → Option (String × List Char)
  | [] => none
  | '"' :: cs => some ("", cs)
  | '\\' :: [] => none
  | '\\' :: e :: cs =>
      match escDecode e with
      | some d => (parseStringBody cs).map (fun r => (String.singleton d ++ r.1, r.2))
      | none => none
  | c :: cs => (parseStringBody cs).map (fun r => (String.singleton c ++ r.1, r.2))

/-- Value of a non-empty digit string. -/
def digitsToNat (l : List Char) : Nat :=
  l.foldl (fun acc c => acc * 10 + (c.toNat - 48)) 0

/-- Parse an integer literal (optional leading minus, then digits). -/
def parseIntToken : List Char → Option (Json × List Char)
  | '-' :: rest =>
      let ds := rest.takeWhile Char.isDigit
      if ds = [] then none
      else some (Json.num (-(digitsToNat ds : Int)), rest.dropWhile Char.isDigit)
  | l =>
      let ds := l.takeWhile Char.isDigit
      if ds = [] then none
      else some (Json.num (digitsToNat ds : Int), l.dropWhile Char.isDigit)

/-- The character `\x7b`. -/
def lbrace : Char := Char.ofNat 123

/-- The character `\x7d`. -/
def rbrace : Char := Char.ofNat 125

mutual

/-- Model of Python's `json` value scanner (fuel-bounded recursive descent):
whitespace, `null`, booleans, integers, strings, arrays and objects. -/
def parseValue : Nat → List Char → Option (Json × List Char)
  | 0, _ => none
  | fuel + 1, l =>
      match skipWs l with
      | 'n' :: 'u' :: 'l' :: 'l' :: rest => some (Json.null, rest)
      | 't' :: 'r' :: 'u' :: 'e' :: rest => some (Json.bool true, rest)
      | 'f' :: 'a' :: 'l' :: 's' :: 'e' :: rest => some (Json.bool false, rest)
      | '"' :: rest => (parseStringBody rest).map (fun r => (Json.str r.1, r.2))
      | '[' :: rest =>
          match skipWs rest with
          | ']' :: rest2 => some (Json.arr [], rest2)
          | l2 => (parseItems fuel l2).map (fun r => (Json.arr r.1, r.2))
      | c :: rest =>
          if c = lbrace then
            match skipWs rest with
            | c2 :: rest2 =>
              if c2 = rbrace then some (Json.obj [], rest2)
              else (parseFields fuel (c2 :: rest2)).map (fun r => (Json.obj r.1, r.2))
            | [] => none
          else parseIntToken (c :: rest)
      | [] => none

/-- Parse the elements of a non-empty JSON array, up to and including the
closing bracket. -/
def parseItems : Nat → List Char → Option (List Json × List Char)
  | 0, _ => none
  | fuel + 1, l =>
      match parseValue fuel l with
      | none => none
      | some (v, rest) =>
          match skipWs rest with
          | ',' :: rest2 => (parseItems fuel rest2).map (fun r => (v :: r.1, r.2))
          | ']' :: rest2 => some ([v], rest2)
          | _ => none

/-- Parse the members of a non-empty JSON object, up to and including the
closing brace. -/
def parseFields : Nat → List Char → Option (List (String × Json) × List Char)
  | 0, _ => none
  | fuel + 1, l =>
      match skipWs l with
      | '"' :: rest =>
          match parseStringBody rest with
          | none => none
          | some (k, rest2) =>
              match skipWs rest2 with
              | ':' :: rest3 =>
                  match parseValue fuel rest3 with
                  | none => none
                  | some (v, rest4) =>
                      match skipWs rest4 with
                      | ',' :: rest5 => (parseFields fuel rest5).map (fun r => ((k, v) :: r.1, r.2))
                      | c :: rest5 => if c = rbrace then some ([(k, v)], rest5) else none
                      | [] => none
              | _ => none
      | _ => none

end

/-- Model of `json.loads`: parse a complete JSON document (the whole input
must be consumed, up to trailing whitespace). -/
def jsonLoads (s : String) : Option Json :=
  match parseValue (s.length + 1) s.data with
  | some (j, rest) => if skipWs rest = [] then some j else none
  | none => none

/-- Model of Python's `str.rstrip("/")`: remove all trailing `/` characters. -/
def rstripSlash (s : String) : String :=
  String.mk ((s.data.reverse.dropWhile (fun ch => ch = '/')).reverse)

/-- The client configuration: the three dataclass fields of `HyperionClient`. -/
structure HyperionClient where
  base_url : String
  api_key : Option String
  timeout : Int
deriving Repr, DecidableEq

/-- The HTTP request handed to `urllib.request.urlopen`: URL, verb, header
mapping, optional serialized body, and the timeout passed alongside. -/
structure HttpRequest where
  url : String
  method : String
  headers : List (String × String)
  body : Option String
  timeout : Int
deriving Repr, DecidableEq

/-- The outcome of `urllib.request.urlopen` on a request:
* `success status body`: a response object (urlopen only returns for
  non-error statuses); the body is already charset-decoded;
* `httpError code reason fp`: an `urllib.error.HTTPError` with status
  `code`, reason phrase `reason`, and `fp` the decoded error body when the
  exception has a readable body attached (`exc.fp`), `none` otherwise;
* `urlError reason`: an `urllib.error.URLError` (connection refused, DNS
  failure, timeout) with its `reason`. -/
inductive TransportResult where
  | success : Nat → String → TransportResult
  | httpError : Nat → String → Option String → TransportResult
  | urlError : String → TransportResult
deriving Repr, DecidableEq

/-- The network as an oracle: what `urlopen` yields for a given request. -/
def Transport : Type := HttpRequest → TransportResult

/-- The outcome of a Python call: a returned value, a raised
`HyperionClientError` with its message, or another uncaught exception
(e.g. `json.JSONDecodeError`). -/
inductive PyResult (α : Type) where
  | ok : α → PyResult α
  | clientError : String → PyResult α
  | pyError : String → PyResult α
deriving Repr, DecidableEq

/-- The header mapping built by `_request`: always `Content-Type`, plus
`X-API-Key` when `self.api_key` is truthy (line 22 of `client.py`). -/
def HyperionClient.requestHeaders (c : HyperionClient) : List (String × String) :=
  [("Content-Type", "application/json")] ++
    (match c.api_key with
     | some k => if k ≠ "" then [("X-API-Key", k)] else []
     | none => [])

/-- The URL built by `_request`: `self.base_url.rstrip("/") + path`. -/
def HyperionClient.requestUrl (c : HyperionClient) (path : String) : String :=
  rstripSlash c.base_url ++ path

/-- The `urllib.request.Request` built by `_request` (lines 20-28 of
`client.py`): URL, headers, optionally serialized body, method; `urlopen`
additionally receives `self.timeout`. -/
def HyperionClient.buildRequest (c : HyperionClient) (path method : String)
    (data : Option Json) : HttpRequest :=
  { url := c.requestUrl path
    method := method
    headers := c.requestHeaders
    body := data.map jsonDumps
    timeout := c.timeout }

/-- The detail text of the `HTTPError` branch:
`exc.read().decode("utf-8") if exc.fp else exc.reason` (line 39). -/
def httpDetail (reason : String) (fp : Option String) : String :=
  match fp with
  | some b => b
  | none => reason

/-- The response/exception handling of `_request` (lines 31-42 of
`client.py`): on success decode the payload, return `{}` for an empty body
and `json.loads(payload)` otherwise; on `HTTPError` raise
`HyperionClientError` with status, verb, path and detail; on `URLError`
raise `HyperionClientError` naming the URL and the cause. -/
def handleTransport (method path url : String) : TransportResult → PyResult Json
  | .success _ body =>
      if body = "" then .ok (Json.obj [])
      else
        match jsonLoads body with
        | some j => .ok j
        | none => .pyError ("json.JSONDecodeError on: " ++ body)
  | .httpError code reason fp =>
      .clientError ("HTTP " ++ toString code ++ " for " ++ method ++ " " ++ path
        ++ ": " ++ httpDetail reason fp)
  | .urlError reason =>
      .clientError ("Unable to reach Hyperion at " ++ url ++ ": " ++ reason)

/-- Model of `HyperionClient._request(path, method, data)` run against a
transport oracle. -/
def HyperionClient.request (c : HyperionClient) (t : Transport)
    (path method : String) (data : Option Json) : PyResult Json :=
  handleTransport method path (c.buildRequest path method data).url
    (t (c.buildRequest path method data))

/-- Operation `get_monitoring_snapshot()`: GET `/api/monitoring`. -/
def HyperionClient.get_monitoring_snapshot (c : HyperionClient) (t : Transport) :
    PyResult Json :=
  c.request t "/api/monitoring" "GET" none

/-- Operation `get_health()`: GET `/api/health`. -/
def HyperionClient.get_health (c : HyperionClient) (t : Transport) : PyResult Json :=
  c.request t "/api/health" "GET" none

/-- The payload computed by `autoscale_plan`: `None` when `replicas` is
`None`, `{"replicas": replicas}` otherwise (lines 59-61 of `client.py`). -/
def autoscalePayload (replicas : Option Int) : Option Json :=
  match replicas with
  | some n => some (Json.obj [("replicas", Json.num n)])
  | none => none

/-- Operation `autoscale_plan(replicas)`: POST `/api/autoscale/plan` with the
optional `{"replicas": replicas}` payload. -/
def HyperionClient.autoscale_plan (c : HyperionClient) (t : Transport)
    (replicas : Option Int) : PyResult Json :=
  c.request t "/api/autoscale/plan" "POST" (autoscalePayload replicas)

/-- Operation `deployment_plan(config)`: POST `/api/deploy/plan` with the
caller-supplied config mapping. -/
def HyperionClient.deployment_plan (c : HyperionClient) (t : Transport)
    (config : List (String × Json)) : PyResult Json :=
  c.request t "/api/deploy/plan" "POST" (some (Json.obj config))

/-- Operation `deployment_apply(config)`: POST `/api/deploy/apply` with the
caller-supplied config mapping. -/
def HyperionClient.deployment_apply (c : HyperionClient) (t : Transport)
    (config : List (String × Json)) : PyResult Json :=
  c.request t "/api/deploy/apply" "POST" (some (Json.obj config))

/-- Operation `deployment_status()`: GET `/api/deploy/status`. -/
def HyperionClient.deployment_status (c : HyperionClient) (t : Transport) :
    PyResult Json :=
  c.request t "/api/deploy/status" "GET" none

/-- One call to any of the six public client operations, with its
arguments. -/
inductive OpCall where
  | get_monitoring_snapshot : OpCall
  | get_health : OpCall
  | autoscale_plan : Option Int → OpCall
  | deployment_plan : List (String × Json) → OpCall
  | deployment_apply : List (String × Json) → OpCall
  | deployment_status : OpCall
deriving Repr

/-- Dispatch an `OpCall` to the corresponding client method. -/
def runOp (c : HyperionClient) (t : Transport) : OpCall → PyResult Json
  | .get_monitoring_snapshot => c.get_monitoring_snapshot t
  | .get_health => c.get_health t
  | .autoscale_plan r => c.autoscale_plan t r
  | .deployment_plan cfg => c.deployment_plan t cfg
  | .deployment_apply cfg => c.deployment_apply t cfg
  | .deployment_status => c.deployment_status t

/-- The fixed path each operation passes to `_request`. -/
def opPath : OpCall → String
  | .get_monitoring_snapshot => "/api/monitoring"
  | .get_health => "/api/health"
  | .autoscale_plan _ => "/api/autoscale/plan"
  | .deployment_plan _ => "/api/deploy/plan"
  | .deployment_apply _ => "/api/deploy/apply"
  | .deployment_status => "/api/deploy/status"

/-- The HTTP verb each operation passes to `_request`. -/
def opMethod : OpCall → String
  | .get_monitoring_snapshot => "GET"
  | .get_health => "GET"
  | .autoscale_plan _ => "POST"
  | .deployment_plan _ => "POST"
  | .deployment_apply _ => "POST"
  | .deployment_status => "GET"

/-- The body data each operation passes to `_request`. -/
def opData : OpCall → Option Json
  | .get_monitoring_snapshot => none
  | .get_health => none
  | .autoscale_plan r => autoscalePayload r
  | .deployment_plan cfg => some (Json.obj cfg)
  | .deployment_apply cfg => some (Json.obj cfg)
  | .deployment_status => none

/-- The single request an operation hands to the transport. -/
def reqOf (c : HyperionClient) (op : OpCall) : HttpRequest :=
  c.buildRequest (opPath op) (opMethod op) (opData op)

/-- State-passing form of an operation call: the source methods contain no
assignment to `self`, so the receiver after the call is the receiver
before it. -/
def runOpSt (c : HyperionClient) (t : Transport) (op : OpCall) :
    PyResult Json × HyperionClient :=
  (runOp c t op, c)

/-- Every operation is `_request` at its fixed path, verb and data. -/
theorem runOp_spec (c : HyperionClient) (t : Transport) (op : OpCall) :
    runOp c t op = c.request t (opPath op) (opMethod op) (opData op) := by
  cases op <;> rfl

/-- Unfolding lemma: `runOp` is the response handler applied to the
transport's answer on the single built request. -/
theorem runOp_handle (c : HyperionClient) (t : Transport) (op : OpCall) :
    runOp c t op =
      handleTransport (opMethod op) (opPath op) (reqOf c op).url (t (reqOf c op)) := by
  rw [runOp_spec]; rfl

/-- The character data of a concatenation is the concatenation of the
character data. -/
theorem dataAppend (a b : String) : (a ++ b).data = a.data ++ b.data := by
  cases a; cases b; rfl

/-- String concatenation is associative. -/
theorem strAppendAssoc (a b c : String) : (a ++ b) ++ c = a ++ (b ++ c) := by
  cases a; cases b; cases c
  exact congrArg String.mk (List.append_assoc _ _ _)

/-- Predicate: `needle` occurs contiguously inside `haystack`. -/
def strContains (needle haystack : String) : Prop :=
  needle.data <:+: haystack.data

/-- A string occurs in any concatenation that displays it. -/
theorem strContains_of_eq (x a b m : String) (h : m = a ++ x ++ b) :
    strContains x m := by
  subst h
  exact ⟨a.data, b.data, by simp [dataAppend]⟩

/-- C1: for every one of the six client operations, when the server answers
with status 200 and a non-empty JSON body, the operation returns the value
parsed from that body. -/
theorem C1_success_returns_parsed (c : HyperionClient) (t : Transport)
    (op : OpCall) (body : String) (j : Json)
    (hresp : t (reqOf c op) = TransportResult.success 200 body)
    (hne : body ≠ "") (hparse : jsonLoads body = some j) :
    runOp c t op = PyResult.ok j := by
  rw [runOp_handle, hresp]
  show (if body = "" then _ else _) = _
  rw [if_neg hne, hparse]

/-- Witness for C1: a monitoring call against a server that answers 200
with the body `[1]`. -/
theorem C1_success_returns_parsed_witness :
    runOp ⟨"http://h", none, 10⟩ (fun _ => TransportResult.success 200 "[1]")
      OpCall.get_monitoring_snapshot = PyResult.ok (Json.arr [Json.num 1]) :=
  C1_success_returns_parsed _ _ _ "[1]" _ rfl (by decide) rfl

/-- C4: for every operation, a 200 response with an empty body returns the
empty mapping and raises no error. -/
theorem C4_empty_body_empty_mapping (c : HyperionClient) (t : Transport)
    (op : OpCall) (hresp : t (reqOf c op) = TransportResult.success 200 "") :
    runOp c t op = PyResult.ok (Json.obj []) := by
  rw [runOp_handle, hresp]
  rfl

/-- Witness for C4: a health call against a server that answers 200 with an
empty body. -/
theorem C4_empty_body_empty_mapping_witness :
    runOp ⟨"http://h", some "key", 10⟩ (fun _ => TransportResult.success 200 "")
      OpCall.get_health = PyResult.ok (Json.obj []) :=
  C4_empty_body_empty_mapping _ _ _ rfl

/-- C10: for every operation, a 200 response whose non-empty body is valid
JSON but not an object is returned to the caller as that parsed non-mapping
value, with no error raised. -/
theorem C10_non_mapping_returned (c : HyperionClient) (t : Transport)
    (op : OpCall) (body : String) (j : Json)
    (hresp : t (reqOf c op) = TransportResult.success 200 body)
    (hne : body ≠ "") (hparse : jsonLoads body = some j)
    (_hnotobj : j.isObj = false) :
    runOp c t op = PyResult.ok j := by
  rw [runOp_handle, hresp]
  show (if body = "" then _ else _) = _
  rw [if_neg hne, hparse]

/-- Witness for C10: a status call against a server that answers 200 with
the body `7`, a JSON number. -/
theorem C10_non_mapping_returned_witness :
    runOp ⟨"http://h", some "key", 10⟩ (fun _ => TransportResult.success 200 "7")
      OpCall.deployment_status = PyResult.ok (Json.num 7) :=
  C10_non_mapping_returned _ _ _ "7" _ rfl (by decide) rfl rfl

/-- Appending the empty string is the identity. -/
theorem strAppendEmpty (a : String) : a ++ "" = a := by
  cases a
  exact congrArg String.mk (List.append_nil _)

/-- C2: for every operation, an HTTP error response (status ≥ 400, raised
by `urlopen` as an `HTTPError`) makes the call fail with a
`HyperionClientError` whose message contains the status code, the verb and
path attempted, and the diagnostic text the server returned in the error
body, or the reason phrase when the exception carried no body. -/
theorem C2_http_error_message (c : HyperionClient) (t : Transport)
    (op : OpCall) (code : Nat) (reason : String) (fp : Option String)
    (_hcode : 400 ≤ code)
    (hresp : t (reqOf c op) = TransportResult.httpError code reason fp) :
    ∃ msg, runOp c t op = PyResult.clientError msg ∧
      strContains (toString code) msg ∧ strContains (opMethod op) msg ∧
      strContains (opPath op) msg ∧ strContains (httpDetail reason fp) msg := by
  refine ⟨"HTTP " ++ toString code ++ " for " ++ opMethod op ++ " " ++ opPath op
    ++ ": " ++ httpDetail reason fp, ?_, ?_, ?_, ?_, ?_⟩
  · rw [runOp_handle, hresp]
    rfl
  · exact strContains_of_eq _ "HTTP "
      (" for " ++ opMethod op ++ " " ++ opPath op ++ ": " ++ httpDetail reason fp) _
      (by simp only [strAppendAssoc])
  · exact strContains_of_eq _ ("HTTP " ++ toString code ++ " for ")
      (" " ++ opPath op ++ ": " ++ httpDetail reason fp) _
      (by simp only [strAppendAssoc])
  · exact strContains_of_eq _ ("HTTP " ++ toString code ++ " for " ++ opMethod op ++ " ")
      (": " ++ httpDetail reason fp) _
      (by simp only [strAppendAssoc])
  · exact strContains_of_eq _
      ("HTTP " ++ toString code ++ " for " ++ opMethod op ++ " " ++ opPath op ++ ": ")
      "" _ (by simp only [strAppendAssoc, strAppendEmpty])

/-- Witness for C2: a health call against a server that rejects with 404
and an error body. -/
theorem C2_http_error_message_witness :
    ∃ msg, runOp ⟨"http://h", none, 10⟩
        (fun _ => TransportResult.httpError 404 "Not Found" (some "missing route"))
        OpCall.get_health = PyResult.clientError msg ∧
      strContains (toString 404) msg ∧ strContains (opMethod OpCall.get_health) msg ∧
      strContains (opPath OpCall.get_health) msg ∧
      strContains (httpDetail "Not Found" (some "missing route")) msg :=
  C2_http_error_message _ _ _ 404 "Not Found" (some "missing route") (by norm_num) rfl

/-- C3: for every client configuration and operation arguments, the built
request always carries `Content-Type: application/json`, and it carries
`X-API-Key: k` exactly when the configured credential is `k` and that
credential is truthy (the source guards the header with `if self.api_key:`,
so "a credential was configured" is Python truthiness of the field; the
empty-string edge of that truthiness test is the subject of C9). -/
theorem C3_headers (c : HyperionClient) (path method : String) (data : Option Json) :
    ("Content-Type", "application/json") ∈ (c.buildRequest path method data).headers ∧
    (∀ k : String, ("X-API-Key", k) ∈ (c.buildRequest path method data).headers ↔
      (c.api_key = some k ∧ k ≠ "")) := by
  constructor
  · cases h : c.api_key with
    | none => simp [HyperionClient.buildRequest, HyperionClient.requestHeaders, h]
    | some k' =>
        by_cases hk : k' = "" <;>
          simp [HyperionClient.buildRequest, HyperionClient.requestHeaders, h, hk]
  · intro k
    cases h : c.api_key with
    | none => simp [HyperionClient.buildRequest, HyperionClient.requestHeaders, h]
    | some k' =>
        by_cases hk : k' = "" <;>
          simp [HyperionClient.buildRequest, HyperionClient.requestHeaders, h, hk] <;>
          aesop

/-- C5: `autoscale_plan` with `replicas` omitted (`None`) serializes no body
at all, and with an integer `n` serializes exactly the JSON object with the
single key `replicas` mapped to `n`. -/
theorem C5_autoscale_body (c : HyperionClient) (n : Int) :
    (c.buildRequest "/api/autoscale/plan" "POST" (autoscalePayload none)).body = none ∧
    (c.buildRequest "/api/autoscale/plan" "POST" (autoscalePayload (some n))).body =
      some (jsonDumps (Json.obj [("replicas", Json.num n)])) ∧
    (c.buildRequest "/api/autoscale/plan" "POST" (autoscalePayload (some 3))).body =
      some "\x7b\"replicas\": 3\x7d" := by
  refine ⟨rfl, rfl, rfl⟩

/-- C6: for every operation, a transport-level failure (`URLError`) makes
the call fail with a `HyperionClientError` whose message contains the full
request URL and the underlying cause; and the result of a call depends on
the transport only through its answer to the single built request, so the
transport is consulted at most once (no retries). -/
theorem C6_transport_failure :
    (∀ (c : HyperionClient) (t : Transport) (op : OpCall) (reason : String),
      t (reqOf c op) = TransportResult.urlError reason →
      ∃ msg, runOp c t op = PyResult.clientError msg ∧
        strContains (reqOf c op).url msg ∧ strContains reason msg) ∧
    (∀ (c : HyperionClient) (t₁ t₂ : Transport) (op : OpCall),
      t₁ (reqOf c op) = t₂ (reqOf c op) → runOp c t₁ op = runOp c t₂ op) := by
  constructor
  · intro c t op reason hresp
    refine ⟨"Unable to reach Hyperion at " ++ (reqOf c op).url ++ ": " ++ reason,
      ?_, ?_, ?_⟩
    · rw [runOp_handle, hresp]
      rfl
    · exact strContains_of_eq _ "Unable to reach Hyperion at " (": " ++ reason) _
        (by simp only [strAppendAssoc])
    · exact strContains_of_eq _
        ("Unable to reach Hyperion at " ++ (reqOf c op).url ++ ": ") "" _
        (by simp only [strAppendAssoc, strAppendEmpty])
  · intro c t₁ t₂ op h
    rw [runOp_handle, runOp_handle, h]

/-- Witness for C6: a status call against an unreachable server. -/
theorem C6_transport_failure_witness :
    ∃ msg, runOp ⟨"http://unreachable:1/", some "k", 5⟩
        (fun _ => TransportResult.urlError "Connection refused")
        OpCall.deployment_status = PyResult.clientError msg ∧
      strContains (reqOf ⟨"http://unreachable:1/", some "k", 5⟩
        OpCall.deployment_status).url msg ∧
      strContains "Connection refused" msg :=
  C6_transport_failure.1 _ _ _ "Connection refused" rfl

/-- Dropping a leading block of characters the predicate accepts reaches
the remainder. -/
theorem dropWhileReplicate (p : Char → Bool) (ch : Char) (hp : p ch = true)
    (k : Nat) (l : List Char) :
    (List.replicate k ch ++ l).dropWhile p = l.dropWhile p := by
  induction k with
  | zero => rfl
  | succ n ih => simp [List.replicate_succ, List.dropWhile_cons, hp, ih]

/-- Trailing slashes are invisible to `rstrip("/")`. -/
theorem rstripSlash_append_slashes (b : String) (k : Nat) :
    rstripSlash (b ++ String.mk (List.replicate k '/')) = rstripSlash b := by
  unfold rstripSlash
  rw [dataAppend]
  show String.mk (((b.data ++ List.replicate k '/').reverse.dropWhile _).reverse) = _
  rw [List.reverse_append, List.reverse_replicate,
    dropWhileReplicate _ '/' (by decide) k b.data.reverse]

/-- C7: every operation's request URL is the configured base address with
all trailing slash separators removed, concatenated with the operation's
fixed path; consequently two clients whose base addresses differ only in
trailing `/` characters build identical request URLs. -/
theorem C7_url_concatenation :
    (∀ (c : HyperionClient) (op : OpCall),
      (reqOf c op).url = rstripSlash c.base_url ++ opPath op) ∧
    (opPath OpCall.get_monitoring_snapshot = "/api/monitoring" ∧
      opPath OpCall.get_health = "/api/health" ∧
      (∀ r, opPath (OpCall.autoscale_plan r) = "/api/autoscale/plan") ∧
      (∀ cfg, opPath (OpCall.deployment_plan cfg) = "/api/deploy/plan") ∧
      (∀ cfg, opPath (OpCall.deployment_apply cfg) = "/api/deploy/apply") ∧
      opPath OpCall.deployment_status = "/api/deploy/status") ∧
    (∀ (c₁ c₂ : HyperionClient) (op : OpCall) (b : String) (k₁ k₂ : Nat),
      c₁.base_url = b ++ String.mk (List.replicate k₁ '/') →
      c₂.base_url = b ++ String.mk (List.replicate k₂ '/') →
      (reqOf c₁ op).url = (reqOf c₂ op).url) := by
  refine ⟨fun c op => rfl, ⟨rfl, rfl, fun r => rfl, fun cfg => rfl, fun cfg => rfl, rfl⟩,
    fun c₁ c₂ op b k₁ k₂ h₁ h₂ => ?_⟩
  show rstripSlash c₁.base_url ++ opPath op = rstripSlash c₂.base_url ++ opPath op
  rw [h₁, h₂, rstripSlash_append_slashes, rstripSlash_append_slashes]

/-- Witness for C7: base addresses `http://h//` and `http://h` produce the
same health URL. -/
theorem C7_url_concatenation_witness :
    (reqOf ⟨"http://h//", none, 10⟩ OpCall.get_health).url
      = (reqOf ⟨"http://h", none, 10⟩ OpCall.get_health).url :=
  C7_url_concatenation.2.2 _ _ _ "http://h" 2 0 (by decide) (by decide)

/-- C8: every operation leaves the client configuration unchanged: the
receiver after the call (the source methods contain no assignment to
`self`) has the same `base_url`, `api_key` and `timeout` as before. -/
theorem C8_config_unchanged (c : HyperionClient) (t : Transport) (op : OpCall) :
    (runOpSt c t op).2.base_url = c.base_url ∧
    (runOpSt c t op).2.api_key = c.api_key ∧
    (runOpSt c t op).2.timeout = c.timeout :=
  ⟨rfl, rfl, rfl⟩

/-- C9: an empty-string credential behaves exactly like an absent one: the
built request is identical to that of a client with no credential, its
header list is exactly the Content-Type header (so no X-API-Key header is
sent), and every operation returns the same result as with no credential. -/
theorem C9_empty_credential (base : String) (timeout : Int) :
    (∀ (path method : String) (data : Option Json),
      HyperionClient.buildRequest ⟨base, some "", timeout⟩ path method data =
        HyperionClient.buildRequest ⟨base, none, timeout⟩ path method data) ∧
    (∀ (path method : String) (data : Option Json),
      (HyperionClient.buildRequest ⟨base, some "", timeout⟩ path method data).headers =
        [("Content-Type", "application/json")]) ∧
    (∀ (t : Transport) (op : OpCall),
      runOp ⟨base, some "", timeout⟩ t op = runOp ⟨base, none, timeout⟩ t op) := by
  refine ⟨fun path method data => rfl, fun path method data => rfl, fun t op => ?_⟩
  rw [runOp_handle, runOp_handle]
  rfl
